import Mathlib

/-!
Verification of the Solana price bot (`src/Solana.py`) against its
natural-language specification.  The Python source is shallowly embedded:
each coroutine becomes a pure Lean function over an explicit oracle of the
environment's responses (HTTP attempt outcomes, platform-call outcomes),
producing a trace of the externally visible actions it performs.
Numbers that are Python floats holding decimal quantities are embedded as ℚ.
-/

namespace SolanaBot

/-- One row of the JSON array returned by the market-data endpoint.
`none` models a missing key (Python `KeyError`) or a value `float(...)`
cannot convert (`TypeError`/`ValueError`). -/
structure Row where
  current_price : Option ℚ
  price_change_percentage_24h : Option ℚ
deriving DecidableEq, Repr

/-- The parsed body of a 200 response: `resp.json()` yields either a JSON
list of rows or something that is not a list. -/
inductive Body where
  | jlist (rows : List Row)
  | notList
deriving DecidableEq, Repr

/-- The outcome the environment supplies for one HTTP attempt inside
`get_price_data`: either a response with a status, parsed body and raw text,
or a network-level error / timeout (`aiohttp.ClientError`,
`asyncio.TimeoutError`). -/
inductive Attempt where
  | resp (status : Nat) (body : Body) (text : String)
  | netErr
deriving DecidableEq, Repr

/-- Result of `get_price_data`: a price sample, or the `RuntimeError`
(the spec's `FetchError`) that escaped, carrying its message. -/
inductive FetchOutcome where
  | success (price change : ℚ)
  | fetchError (msg : String)
deriving DecidableEq, Repr

/-- Trace of one run of `get_price_data`: `delays` has one entry per HTTP
request actually issued, holding the pre-attempt delay slept before it
(the source skips `asyncio.sleep(0)` via `if delay:`, which is
observationally the same as sleeping 0 seconds). -/
structure FetchTrace where
  delays : List ℚ
  outcome : FetchOutcome
deriving DecidableEq, Repr

/-- The transient status codes of line 67 of the source:
`(429, 500, 502, 503, 504)`. -/
def transientStatuses : List Nat := [429, 500, 502, 503, 504]

/-- Classification of a single attempt, lines 56-73 of the source.
A 200 response is parsed: a non-empty list whose first row has both fields
succeeds; an empty or non-list body raises `RuntimeError` (fatal, not caught
by the `except (aiohttp.ClientError, asyncio.TimeoutError)` handler); a
first row missing a field raises `KeyError`/`TypeError` (equally fatal).
A transient status logs and falls through to the next attempt; any other
status raises with the truncated body text; a network error is caught and
logged (transient). -/
inductive StepClass where
  | success (price change : ℚ)
  | fatal (msg : String)
  | transient
deriving DecidableEq, Repr

def classifyAttempt : Attempt → StepClass
  | .netErr => .transient
  | .resp status body text =>
    if status = 200 then
      match body with
      | .notList => .fatal "CoinGecko returned empty or invalid list"
      | .jlist [] => .fatal "CoinGecko returned empty or invalid list"
      | .jlist (row :: _) =>
        match row.current_price, row.price_change_percentage_24h with
        | some p, some c => .success p c
        | _, _ => .fatal "KeyError: missing price field"
    else if status ∈ transientStatuses then .transient
    else .fatal ("CoinGecko HTTP " ++ toString status ++ ": " ++ text.take 200)

/-- The backoff schedule of line 51: `backoffs = [0, 1.5, 3.0, 5.0]`. -/
def backoffs : List ℚ := [0, 3/2, 3, 5]

/-- The retry loop of `get_price_data` (lines 53-75), recursing over the
remaining backoff schedule; `i` indexes the attempt oracle. -/
def fetchAux (attempts : Nat → Attempt) : List ℚ → Nat → FetchTrace
  | [], _ =>
    ⟨[], .fetchError "Failed to fetch ICP price after retries"⟩
  | d :: rest, i =>
    match classifyAttempt (attempts i) with
    | .success p c => ⟨[d], .success p c⟩
    | .fatal m => ⟨[d], .fetchError m⟩
    | .transient =>
      let t := fetchAux attempts rest (i + 1)
      ⟨d :: t.delays, t.outcome⟩

/-- `get_price_data(session)`: runs the attempt loop over the full backoff
schedule; raises `RuntimeError("Failed to fetch ICP price after retries")`
when the schedule is exhausted (line 75). -/
def get_price_data (attempts : Nat → Attempt) : FetchTrace :=
  fetchAux attempts backoffs 0

/-- The number of HTTP requests a run issued: one per recorded delay. -/
def requestCount (t : FetchTrace) : Nat := t.delays.length

/-- An attempt outcome is transient in the sense of claim C2: a status in
`{429, 500, 502, 503, 504}`, or a network error or timeout. -/
def isTransient : Attempt → Prop
  | .netErr => True
  | .resp status _ _ => status ∈ transientStatuses

instance : DecidablePred isTransient := by
  intro a
  cases a with
  | netErr => exact isTrue trivial
  | resp s b t => exact (inferInstance : Decidable (s ∈ transientStatuses))

/-- A 200 body is malformed in the sense of claim C3: not a non-empty JSON
array whose first element has the two numeric fields. -/
def malformedBody : Body → Prop
  | .notList => True
  | .jlist [] => True
  | .jlist (row :: _) =>
    row.current_price = none ∨ row.price_change_percentage_24h = none

instance : DecidablePred malformedBody := by
  intro b
  cases b with
  | notList => exact isTrue trivial
  | jlist rows =>
    cases rows with
    | nil => exact isTrue trivial
    | cons r rs =>
      exact (inferInstance :
        Decidable (r.current_price = none ∨ r.price_change_percentage_24h = none))

lemma classifyAttempt_transient {a : Attempt} (h : isTransient a) :
    classifyAttempt a = .transient := by
  cases a with
  | netErr => rfl
  | resp status body text =>
    have hs : status ∈ transientStatuses := h
    have h200 : status ≠ 200 := by
      intro he
      subst he
      simp [transientStatuses] at hs
    simp [classifyAttempt, h200, hs]

lemma classifyAttempt_malformed {body : Body} {text : String}
    (h : malformedBody body) :
    ∃ m, classifyAttempt (.resp 200 body text) = .fatal m := by
  cases body with
  | notList => exact ⟨_, rfl⟩
  | jlist rows =>
    cases rows with
    | nil => exact ⟨_, rfl⟩
    | cons r rs =>
      rcases h with h1 | h2
      · refine ⟨"KeyError: missing price field", ?_⟩
        simp [classifyAttempt, h1]
      · refine ⟨"KeyError: missing price field", ?_⟩
        cases hc : r.current_price <;> simp [classifyAttempt, h2, hc]

/-! ## Number formatting (Python `f"{x:.2f}"` and `f"{x:+.2f}"`)

Python formats a float to two decimals by rounding to the nearest hundredth
with ties going to the even last digit.  The embedding works on exact
rationals; round-half-even is symmetric about zero, so rounding the
magnitude and prefixing the sign matches Python. -/

/-- Round the fraction `n / d` (with `d > 0`) to the nearest integer, ties
to the even integer, expressed over integers: the fractional part
`(n fmod d) / d` is compared with `1/2` by comparing `2 * (n fmod d)`
with `d`. -/
def roundHalfEvenInt (n d : ℤ) : ℤ :=
  let f := Int.fdiv n d
  let r := Int.fmod n d
  if 2 * r < d then f
  else if d < 2 * r then f + 1
  else if f % 2 = 0 then f else f + 1

/-- Two-digit zero-padded rendering of a number of cents below 100. -/
def pad2 (n : ℕ) : String :=
  if n < 10 then "0" ++ toString n else toString n

/-- The number of hundredths in the magnitude of `q`, rounded half to even:
`|q| * 100 = (100 * q.num.natAbs) / q.den`. -/
def centsOf (q : ℚ) : ℕ :=
  (roundHalfEvenInt (100 * (q.num.natAbs : ℤ)) (q.den : ℤ)).toNat

/-- `f"{q:.2f}"`: magnitude rounded to hundredths, rendered with exactly two
decimal places, `-` prefixed for negative values (`q < 0` iff `q.num < 0`;
Python renders `-0.001` as `"-0.00"`). -/
def fmt2 (q : ℚ) : String :=
  (if q.num < 0 then "-" else "") ++
    toString (centsOf q / 100) ++ "." ++ pad2 (centsOf q % 100)

/-- `f"{q:+.2f}"`: like `fmt2` but with an explicit sign, `+` for
non-negative values. -/
def fmt2Signed (q : ℚ) : String :=
  (if q.num < 0 then "-" else "+") ++
    toString (centsOf q / 100) ++ "." ++ pad2 (centsOf q % 100)

/-- Python's `s[:32]`: keep at most the first 32 characters. -/
def truncate32 (s : String) : String := ⟨s.data.take 32⟩

/-- The emoji of line 104: `"🟢" if change_24h >= 0 else "🔴"`
(a rational is non-negative exactly when its numerator is). -/
def emojiOf (change : ℚ) : String := if 0 ≤ change.num then "🟢" else "🔴"

/-- The nickname of lines 105-107: `f"${price:.2f} {emoji}"`, truncated to
32 characters when longer. -/
def nicknameOf (price change : ℚ) : String :=
  truncate32 ("$" ++ fmt2 price ++ " " ++ emojiOf change)

/-- The presence text of line 118: `f"24h change {change_24h:+.2f}%"`. -/
def statusTextOf (change : ℚ) : String :=
  "24h change " ++ fmt2Signed change ++ "%"

/-! ## GuildUpdater (`update_guild`, lines 79-122) -/

/-- An externally visible action performed during one `update_guild` call
or one scheduler tick. -/
inductive Event where
  | fetchPrice
  | editNick (nick : String)
  | setPresence (text : String)
  | logInfo (msg : String)
  | logWarning (msg : String)
  | logDebug (msg : String)
  | logError (msg : String)
deriving DecidableEq, Repr

/-- Outcome the platform reports for the `me.edit(nick=...)` call:
success, `discord.Forbidden`, or another `discord.HTTPException`. -/
inductive EditOutcome where
  | ok
  | forbidden
  | httpError
deriving DecidableEq, Repr

/-- The per-community inputs `update_guild` consumes in one cycle, all
resolved afresh on each call (the function holds no state across calls):
whether `guild.me or await guild.fetch_member(...)` produced a member,
the two permission bits read from `me.guild_permissions`, the outcome of
this call's own `get_price_data` invocation, the platform outcome of the
nickname edit, and whether `change_presence` succeeds. -/
structure GuildEnv where
  memberResolved : Bool
  change_nickname : Bool
  manage_nicknames : Bool
  fetch : FetchOutcome
  editResult : EditOutcome
  presenceOk : Bool
deriving DecidableEq, Repr

/-- `update_guild(guild)` as an event trace, following the source line by
line.  Member-resolution failure returns after a warning (lines 83-85);
missing permission returns after an informational log (lines 88-90); the
price fetch happens inside this function (line 94), and on its failure the
degraded presence is attempted with any error swallowed (lines 95-102);
the nickname edit's `Forbidden`/`HTTPException` outcomes are caught and
logged (lines 109-114); the presence update then runs regardless, its own
failure only logged at debug level (lines 117-120). -/
def update_guild (env : GuildEnv) : List Event :=
  if env.memberResolved = false then
    [.logWarning "Could not fetch bot member"]
  else if (env.change_nickname || env.manage_nicknames) = false then
    [.logInfo "Missing permission: Change Nickname (or Manage Nicknames)."]
  else
    Event.fetchPrice ::
    match env.fetch with
    | .fetchError m =>
      [.logWarning ("Price fetch failed: " ++ m),
       .setPresence "price: API error"]
    | .success price change =>
      Event.editNick (nicknameOf price change) ::
      (match env.editResult with
       | .ok => []
       | .forbidden =>
         [.logInfo "Forbidden: role hierarchy/permissions block nickname change."]
       | .httpError => [.logWarning "HTTP error updating nick"]) ++
      Event.setPresence (statusTextOf change) ::
      (if env.presenceOk then [] else [.logDebug "Could not set presence"]) ++
      [.logInfo ("Nick -> " ++ nicknameOf price change)]

/-- A guild passes the early guards of `update_guild`: its member was
resolved and at least one of the two nickname permissions is held. -/
def passesGuards (env : GuildEnv) : Bool :=
  env.memberResolved && (env.change_nickname || env.manage_nicknames)

/-- Number of price-fetch invocations recorded in a trace. -/
def countFetch (evs : List Event) : Nat := evs.count Event.fetchPrice

lemma countFetch_update_guild (env : GuildEnv) :
    countFetch (update_guild env) = if passesGuards env then 1 else 0 := by
  unfold countFetch update_guild passesGuards
  cases hm : env.memberResolved <;>
    cases hp : env.change_nickname || env.manage_nicknames <;>
      simp_all
  cases hf : env.fetch with
  | fetchError m => simp [List.count_cons]
  | success p c =>
    cases he : env.editResult <;> cases hq : env.presenceOk <;>
      simp [List.count_cons, List.count_append]

/-! ## UpdateCycleScheduler (`updater_loop`, `on_ready`, `_shutdown`) -/

/-- Python truthiness of the `Optional[int]` global `GUILD_ID` as tested by
`if GUILD_ID:` on line 132: `None` and `0` are falsy. -/
def truthyOptInt : Option ℤ → Bool
  | none => false
  | some n => n != 0

/-- Accumulate decimal digits; any non-digit character fails the parse. -/
def digitsToNatAux : List Char → ℕ → Option ℕ
  | [], acc => some acc
  | c :: cs, acc =>
    if c.isDigit then digitsToNatAux cs (10 * acc + (c.toNat - 48)) else none

/-- Python's `int(s)` on an optionally signed decimal string. -/
def pyInt (s : String) : Option ℤ :=
  match s.data with
  | [] => none
  | '-' :: cs =>
    if cs = [] then none else (digitsToNatAux cs 0).map fun n => -(n : ℤ)
  | '+' :: cs =>
    if cs = [] then none else (digitsToNatAux cs 0).map fun n => (n : ℤ)
  | cs => (digitsToNatAux cs 0).map fun n => (n : ℤ)

/-- Startup parsing of the `GUILD_ID` environment variable (lines 18-23):
unset or empty is falsy (`if GUILD_ID_RAW:`) and leaves `GUILD_ID = None`;
otherwise `int(raw)` is taken, and a `ValueError` exits the process
(`SystemExit`). -/
def parseGuildId (raw : Option String) : Except String (Option ℤ) :=
  match raw with
  | none => .ok none
  | some s =>
    if s = "" then .ok none
    else match pyInt s with
      | some n => .ok (some n)
      | none => .error "GUILD_ID must be an integer if provided"

/-- Target resolution of lines 131-138: when `GUILD_ID` is truthy, look it
up (an absent guild yields zero targets for this tick); otherwise target
every guild the client belongs to. -/
def resolveTargets (guildId : Option ℤ) (lookup : ℤ → Option ℕ)
    (allGuilds : List ℕ) : List ℕ :=
  if truthyOptInt guildId then
    match lookup (guildId.getD 0) with
    | some g => [g]
    | none => []
  else allGuilds

/-- The whole-tick inputs: the configured id, the client's guild cache, and
each guild's per-cycle `update_guild` inputs. -/
structure TickEnv where
  guildId : Option ℤ
  lookup : ℤ → Option ℕ
  allGuilds : List ℕ
  envs : ℕ → GuildEnv

/-- The targets a tick resolves. -/
def tickTargets (e : TickEnv) : List ℕ :=
  resolveTargets e.guildId e.lookup e.allGuilds

/-- The events of one tick's fan-out (`asyncio.gather` over
`update_guild(g)` on line 143), tagged with the guild they belong to. -/
def tickEvents (e : TickEnv) : List (ℕ × Event) :=
  (tickTargets e).flatMap fun g => (update_guild (e.envs g)).map fun ev => (g, ev)

/-- How many price-fetch invocations one tick performs in total. -/
def tickFetchCount (e : TickEnv) : Nat :=
  countFetch ((tickEvents e).map Prod.snd)

lemma tickFetchCount_eq_sum (e : TickEnv) :
    tickFetchCount e =
      ((tickTargets e).filter fun g => passesGuards (e.envs g)).length := by
  unfold tickFetchCount tickEvents
  induction tickTargets e with
  | nil => simp [countFetch]
  | cons g gs ih =>
    have hg := countFetch_update_guild (e.envs g)
    simp only [List.flatMap_cons, List.map_append, List.map_map, List.filter_cons]
    unfold countFetch at hg ⊢
    rw [List.count_append]
    have hcomp : (Prod.snd ∘ fun ev => ((g, ev) : ℕ × Event)) = id := rfl
    rw [hcomp, List.map_id, hg]
    cases hp : passesGuards (e.envs g) <;> simp_all [countFetch, Nat.add_comm]

/-- The events of one loop iteration body (lines 130-147): the tick
orchestration runs inside `try/except Exception`, whose `except` arm logs
the error; either way the iteration ends in the interval sleep.  `tick` is
the orchestration's outcome for iteration `i` (`Except.error` models an
exception escaping the tick). -/
def loopIter (tick : Except String Unit) : List Event :=
  (match tick with
   | .ok _ => []
   | .error m => [Event.logError ("Updater loop error: " ++ m)]) ++
  [Event.logInfo "sleep"]

/-- The `while not client.is_closed()` loop (lines 129-147), step-indexed by
`fuel`; `closed i` is the value of `client.is_closed()` at the top of
iteration `i`, and `ticks i` that iteration's orchestration outcome. -/
def updater_loop (closed : Nat → Bool) (ticks : Nat → Except String Unit) :
    Nat → Nat → List (Nat × Event)
  | 0, _ => []
  | fuel + 1, i =>
    if closed i then []
    else ((loopIter (ticks i)).map fun ev => (i, ev)) ++
      updater_loop closed ticks fuel (i + 1)

/-- The iterations a loop run actually reaches: those that got to the
interval sleep. -/
def loopIterations (evs : List (Nat × Event)) : List Nat :=
  (evs.filter fun p => p.2 = Event.logInfo "sleep").map Prod.fst

/-- Process-level state relevant to `on_ready` and `_shutdown`: whether
`_http_session` is a live (non-closed) session, whether `update_task` is a
task that is not done, plus instrumentation counting `create_task` and
`session.close()` calls. -/
structure BotState where
  sessionOpen : Bool
  taskActive : Bool
  tasksCreated : Nat
  sessionCloses : Nat
deriving DecidableEq, Repr

/-- `on_ready` (lines 151-160): recreate the HTTP session if absent or
closed; start the updater loop task only if no loop task is active
(`update_task is None or update_task.done()`). -/
def on_ready (s : BotState) : BotState :=
  let s1 :=
    if s.sessionOpen = false then
      { s with sessionOpen := true }
    else s
  if s1.taskActive = false then
    { s1 with taskActive := true, tasksCreated := s1.tasksCreated + 1 }
  else s1

/-- A Python exception escaping `_shutdown`. -/
inductive PyError where
  | nameError (name : String)
deriving DecidableEq, Repr

/-- The modules imported by `src/Solana.py` (lines 1-7): `os`, `asyncio`,
`logging`, `typing`, `aiohttp`, `discord`.  `contextlib` is not among
them. -/
def importedModules : List String :=
  ["os", "asyncio", "logging", "typing", "aiohttp", "discord"]

/-- `_shutdown` (lines 174-181).  When a not-done task exists it is
cancelled, and line 178 then evaluates `contextlib.suppress(...)`: that
evaluation succeeds only when the name `contextlib` is bound (imported),
awaits the task under the suppression, and then the open session is closed;
when `contextlib` is not bound, Python raises `NameError` there, before the
task is awaited and before the session-closing code runs.  With no active
task, the open session is closed once. -/
def shutdownRun (s : BotState) : BotState × Option PyError :=
  if s.taskActive then
    if "contextlib" ∈ importedModules then
      let s1 := { s with taskActive := false }
      if s1.sessionOpen then
        ({ s1 with sessionOpen := false, sessionCloses := s1.sessionCloses + 1 }, none)
      else (s1, none)
    else (s, some (.nameError "contextlib"))
  else if s.sessionOpen then
    ({ s with sessionOpen := false, sessionCloses := s.sessionCloses + 1 }, none)
  else (s, none)

/-! ## Claim theorems -/

/-- C2: when every attempt's response is transient (status in
{429, 500, 502, 503, 504}, or a network error or timeout), `get_price_data`
issues exactly 4 requests with pre-attempt delays 0s, 1.5s, 3s, 5s, then
fails with the exhausted-retries `FetchError`; the delay list having length
4 means no fifth request is ever issued. -/
theorem fetch_all_transient_exactly_four_requests (attempts : Nat → Attempt)
    (h : ∀ i, i < 4 → isTransient (attempts i)) :
    (get_price_data attempts).delays = [0, 3/2, 3, 5] ∧
    requestCount (get_price_data attempts) = 4 ∧
    (get_price_data attempts).outcome =
      .fetchError "Failed to fetch ICP price after retries" := by
  have h0 := classifyAttempt_transient (h 0 (by norm_num))
  have h1 := classifyAttempt_transient (h 1 (by norm_num))
  have h2 := classifyAttempt_transient (h 2 (by norm_num))
  have h3 := classifyAttempt_transient (h 3 (by norm_num))
  refine ⟨?_, ?_, ?_⟩ <;>
    simp [get_price_data, backoffs, fetchAux, requestCount, h0, h1, h2, h3]

/-- Witness for C2 at the all-network-errors oracle. -/
theorem fetch_all_transient_exactly_four_requests_witness :
    (get_price_data fun _ => Attempt.netErr).delays = [0, 3/2, 3, 5] ∧
    requestCount (get_price_data fun _ => Attempt.netErr) = 4 ∧
    (get_price_data fun _ => Attempt.netErr).outcome =
      .fetchError "Failed to fetch ICP price after retries" :=
  fetch_all_transient_exactly_four_requests (fun _ => Attempt.netErr)
    (fun _ _ => trivial)

/-- C3: when the first attempt returns HTTP 200 with an empty or malformed
body (not a non-empty JSON array whose first element has the two numeric
fields), `get_price_data` fails with a `FetchError` immediately, issuing
exactly 1 request and performing no retry. -/
theorem fetch_malformed_200_fails_immediately (attempts : Nat → Attempt)
    (body : Body) (text : String)
    (h0 : attempts 0 = .resp 200 body text) (hm : malformedBody body) :
    requestCount (get_price_data attempts) = 1 ∧
    (get_price_data attempts).delays = [0] ∧
    ∃ m, (get_price_data attempts).outcome = .fetchError m := by
  obtain ⟨m, hc⟩ := @classifyAttempt_malformed body text hm
  rw [← h0] at hc
  refine ⟨?_, ?_, ⟨m, ?_⟩⟩ <;>
    simp [get_price_data, backoffs, fetchAux, requestCount, hc]

/-- Witness for C3 at a 200 response carrying an empty JSON array. -/
theorem fetch_malformed_200_fails_immediately_witness :
    requestCount (get_price_data fun _ => Attempt.resp 200 (.jlist []) "[]") = 1 ∧
    (get_price_data fun _ => Attempt.resp 200 (.jlist []) "[]").delays = [0] ∧
    ∃ m, (get_price_data fun _ => Attempt.resp 200 (.jlist []) "[]").outcome =
      .fetchError m :=
  fetch_malformed_200_fails_immediately (fun _ => Attempt.resp 200 (.jlist []) "[]")
    (.jlist []) "[]" rfl trivial

lemma truncate32_length_le (s : String) : (truncate32 s).length ≤ 32 := by
  show (s.data.take 32).length ≤ 32
  simp

lemma nicknameOf_data (price change : ℚ) :
    (nicknameOf price change).data =
      '$' :: ((fmt2 price ++ " " ++ emojiOf change).data.take 31) := by
  show (("$" ++ fmt2 price ++ " " ++ emojiOf change).data.take 32) = _
  show (('$' :: (fmt2 price ++ " " ++ emojiOf change).data).take 32) = _
  rfl

/-- C4: the `DisplayUpdate` is computed deterministically from the sample:
the emoji is `🟢` when the 24h change is non-negative and `🔴` otherwise;
the nickname is `$`, the price to two decimals, a space and the emoji,
truncated to at most 32 characters (hence its length is at most 32 and its
first character is `$`); the status text is `24h change `, the change with
an explicit sign and two decimals, and `%`; price `1234.567` with change
`+3.21` yields nickname `$1234.57 🟢` and status `24h change +3.21%`. -/
theorem display_update_correct (price change : ℚ) :
    (0 ≤ change → emojiOf change = "🟢") ∧
    (change < 0 → emojiOf change = "🔴") ∧
    nicknameOf price change =
      truncate32 ("$" ++ fmt2 price ++ " " ++ emojiOf change) ∧
    (nicknameOf price change).length ≤ 32 ∧
    (nicknameOf price change).data.head? = some '$' ∧
    statusTextOf change = "24h change " ++ fmt2Signed change ++ "%" ∧
    nicknameOf (mkRat 1234567 1000) (mkRat 321 100) = "$1234.57 🟢" ∧
    statusTextOf (mkRat 321 100) = "24h change +3.21%" := by
  refine ⟨?_, ?_, rfl, truncate32_length_le _, ?_, rfl, by decide, by decide⟩
  · intro h
    simp [emojiOf, Rat.num_nonneg.mpr h]
  · intro h
    have hn : change.num < 0 := Rat.num_neg.mpr h
    simp [emojiOf, not_le.mpr hn]
  · rw [nicknameOf_data]
    rfl

/-- Witness for C4's sign hypotheses at changes `0` and `-1`. -/
theorem display_update_correct_witness :
    emojiOf 0 = "🟢" ∧ emojiOf (-1) = "🔴" :=
  ⟨(display_update_correct 0 0).1 le_rfl,
   (display_update_correct 0 (-1)).2.1 (by norm_num)⟩

/-- C5: a nickname edit is emitted only when the permission state resolved
in the same call grants one of the two nickname permissions, and when
neither is held the call produces exactly the informational log and nothing
else.  `update_guild` is a pure function of this cycle's `GuildEnv`, so no
authorization result can be carried over from a previous cycle: the
permission bits it consults are the ones resolved in this invocation. -/
theorem nickname_update_requires_fresh_permission (env : GuildEnv) :
    (∀ nick, Event.editNick nick ∈ update_guild env →
      (env.change_nickname || env.manage_nicknames) = true) ∧
    (env.memberResolved = true →
      (env.change_nickname || env.manage_nicknames) = false →
      update_guild env =
        [Event.logInfo
          "Missing permission: Change Nickname (or Manage Nicknames)."]) := by
  constructor
  · intro nick hmem
    by_contra hperm
    have hp : (env.change_nickname || env.manage_nicknames) = false := by
      cases h : env.change_nickname || env.manage_nicknames
      · rfl
      · exact absurd h hperm
    cases hm : env.memberResolved <;> simp [update_guild, hm, hp] at hmem
  · intro hm hp
    simp [update_guild, hm, hp]

/-- Witness for C5 at a member-resolved community lacking both nickname
permissions. -/
theorem nickname_update_requires_fresh_permission_witness :
    update_guild ⟨true, false, false, .fetchError "e", .ok, true⟩ =
      [Event.logInfo
        "Missing permission: Change Nickname (or Manage Nicknames)."] :=
  (nickname_update_requires_fresh_permission
    ⟨true, false, false, .fetchError "e", .ok, true⟩).2 rfl rfl

/-- C6: when the nickname edit reports `Forbidden` or another platform-API
error, the same `update_guild` call still attempts the presence/status
update, and execution continues to the final success log — the failure is
caught inside `update_guild` (a total function into an event trace), never
raised to the scheduler. -/
theorem status_attempted_after_nick_failure (env : GuildEnv) (p c : ℚ)
    (hm : env.memberResolved = true)
    (hp : (env.change_nickname || env.manage_nicknames) = true)
    (hf : env.fetch = .success p c)
    (he : env.editResult = .forbidden ∨ env.editResult = .httpError) :
    Event.setPresence (statusTextOf c) ∈ update_guild env ∧
    Event.logInfo ("Nick -> " ++ nicknameOf p c) ∈ update_guild env := by
  rcases he with he | he <;>
    cases hq : env.presenceOk <;>
      simp [update_guild, hm, hp, hf, he, hq]

/-- Witness for C6 at a permitted community whose nickname edit is
forbidden. -/
theorem status_attempted_after_nick_failure_witness :
    Event.setPresence (statusTextOf (mkRat 321 100)) ∈
      update_guild ⟨true, true, false,
        .success (mkRat 1234567 1000) (mkRat 321 100), .forbidden, true⟩ ∧
    Event.logInfo ("Nick -> " ++ nicknameOf (mkRat 1234567 1000) (mkRat 321 100)) ∈
      update_guild ⟨true, true, false,
        .success (mkRat 1234567 1000) (mkRat 321 100), .forbidden, true⟩ :=
  status_attempted_after_nick_failure
    ⟨true, true, false, .success (mkRat 1234567 1000) (mkRat 321 100),
      .forbidden, true⟩
    (mkRat 1234567 1000) (mkRat 321 100) rfl rfl rfl (Or.inl rfl)

/-- A permitted guild environment whose own fetch succeeds at `price`. -/
def permittedEnv (price : ℚ) : GuildEnv :=
  ⟨true, true, false, .success price (mkRat 1 1), .ok, true⟩

/-- A tick with no configured guild id and two member guilds, whose two
per-guild fetches return different prices. -/
def twoGuildTick : TickEnv where
  guildId := none
  lookup := fun _ => none
  allGuilds := [1, 2]
  envs := fun g => if g = 1 then permittedEnv (mkRat 100 1) else permittedEnv (mkRat 200 1)

/-- C1 fails on the code: in a tick with a non-empty target set the price
fetch is not invoked once by the scheduler — `update_guild` fetches per
guild, so this two-guild tick performs two fetches, and the two
communities' nickname edits are computed from different samples. -/
theorem tick_fetches_once_counterexample :
    tickTargets twoGuildTick ≠ [] ∧
    tickFetchCount twoGuildTick = 2 ∧
    (1, Event.editNick (nicknameOf (mkRat 100 1) (mkRat 1 1))) ∈ tickEvents twoGuildTick ∧
    (2, Event.editNick (nicknameOf (mkRat 200 1) (mkRat 1 1))) ∈ tickEvents twoGuildTick ∧
    nicknameOf (mkRat 100 1) (mkRat 1 1) ≠ nicknameOf (mkRat 200 1) (mkRat 1 1) := by
  refine ⟨by decide, by decide, by decide, by decide, by decide⟩

/-- C1 amended: the scheduler performs no fetch of its own; the price-fetch
operation is invoked once per target community that passes member
resolution and the permission check — inside that community's own
`update_guild` call — so each such community uses the sample of its own
fetch. -/
theorem tick_fetches_once_per_permitted_community (e : TickEnv) :
    tickFetchCount e =
      ((tickTargets e).filter fun g => passesGuards (e.envs g)).length :=
  tickFetchCount_eq_sum e

/-- C7 fails on the code: invoking `_shutdown` while the loop task is
running raises `NameError` at `contextlib.suppress` (the module is absent
from the source's import list), before the task is awaited and before the
session-closing code runs — the session stays open and is closed zero
times, so it is leaked rather than closed exactly once after the task
finishes. -/
theorem shutdown_nameerror_leaks_session :
    "contextlib" ∉ importedModules ∧
    shutdownRun ⟨true, true, 0, 0⟩ =
      (⟨true, true, 0, 0⟩, some (.nameError "contextlib")) ∧
    (shutdownRun ⟨true, true, 0, 0⟩).1.sessionOpen = true ∧
    (shutdownRun ⟨true, true, 0, 0⟩).1.sessionCloses = 0 := by
  refine ⟨by decide, by decide, by decide, by decide⟩

lemma loopIterations_append (a b : List (Nat × Event)) :
    loopIterations (a ++ b) = loopIterations a ++ loopIterations b := by
  simp [loopIterations]

lemma loopIterations_loopIter (i : Nat) (t : Except String Unit) :
    loopIterations ((loopIter t).map fun ev => (i, ev)) = [i] := by
  cases t <;> simp [loopIter, loopIterations]

lemma loopIterations_independent (closed : Nat → Bool)
    (ticks ticks' : Nat → Except String Unit) (fuel : Nat) : ∀ i,
    loopIterations (updater_loop closed ticks fuel i) =
      loopIterations (updater_loop closed ticks' fuel i) := by
  induction fuel with
  | zero => intro i; rfl
  | succ n ih =>
    intro i
    unfold updater_loop
    cases hc : closed i
    · simp only [Bool.false_eq_true, if_false, loopIterations_append,
        loopIterations_loopIter, ih (i + 1)]
    · simp

/-- C8: an exception escaping one tick's orchestration is caught by the
loop body's defensive handler: the iteration logs the error, still reaches
the interval sleep (the tick is skipped), and the loop proceeds to the next
iteration; consequently the set of iterations a run reaches is independent
of which ticks raised. -/
theorem tick_exception_caught_loop_continues (closed : Nat → Bool)
    (ticks : Nat → Except String Unit) (fuel i : Nat) (m : String)
    (hc : closed i = false) (ht : ticks i = .error m) :
    updater_loop closed ticks (fuel + 1) i =
      (i, Event.logError ("Updater loop error: " ++ m)) ::
        (i, Event.logInfo "sleep") ::
          updater_loop closed ticks fuel (i + 1) ∧
    (∀ ticks' : Nat → Except String Unit,
      loopIterations (updater_loop closed ticks (fuel + 1) i) =
        loopIterations (updater_loop closed ticks' (fuel + 1) i)) := by
  constructor
  · simp [updater_loop, hc, loopIter, ht]
  · intro ticks'
    exact loopIterations_independent closed ticks ticks' (fuel + 1) i

/-- Witness for C8: a one-iteration run whose only tick raises. -/
theorem tick_exception_caught_loop_continues_witness :
    updater_loop (fun _ => false) (fun _ => Except.error "boom") 1 0 =
      (0, Event.logError ("Updater loop error: " ++ "boom")) ::
        (0, Event.logInfo "sleep") ::
          updater_loop (fun _ => false) (fun _ => Except.error "boom") 0 1 ∧
    (∀ ticks' : Nat → Except String Unit,
      loopIterations (updater_loop (fun _ => false) (fun _ => Except.error "boom") 1 0) =
        loopIterations (updater_loop (fun _ => false) ticks' 1 0)) :=
  tick_exception_caught_loop_continues (fun _ => false)
    (fun _ => Except.error "boom") 0 0 "boom" rfl rfl

/-- C9: a ready signal arriving while a loop task is active and not
finished creates no second loop task and leaves the loop state unchanged
(`update_task is None or update_task.done()` guards `create_task`). -/
theorem on_ready_idempotent (s : BotState) (h : s.taskActive = true) :
    (on_ready s).taskActive = s.taskActive ∧
    (on_ready s).tasksCreated = s.tasksCreated := by
  unfold on_ready
  cases hs : s.sessionOpen <;> simp [h, hs]

/-- Witness for C9 at a state with an active loop task. -/
theorem on_ready_idempotent_witness :
    (on_ready ⟨true, true, 1, 0⟩).taskActive = (⟨true, true, 1, 0⟩ : BotState).taskActive ∧
    (on_ready ⟨true, true, 1, 0⟩).tasksCreated = (⟨true, true, 1, 0⟩ : BotState).tasksCreated :=
  on_ready_idempotent ⟨true, true, 1, 0⟩ rfl

/-- C10: the raw value `"0"` parses to the configured id `0`, which the
truthiness test of `if GUILD_ID:` treats exactly like an absent id: target
resolution returns every guild the bot belongs to, never the single guild
with id 0 looked up in the cache. -/
theorem guild_id_zero_targets_all_guilds :
    parseGuildId (some "0") = .ok (some 0) ∧
    (∀ (lookup : ℤ → Option ℕ) (gs : List ℕ),
      resolveTargets (some 0) lookup gs = gs ∧
      resolveTargets (some 0) lookup gs = resolveTargets none lookup gs) := by
  refine ⟨rfl, ?_⟩
  intro lookup gs
  exact ⟨by simp [resolveTargets, truthyOptInt], by simp [resolveTargets, truthyOptInt]⟩

end SolanaBot
